import Mathlib

/-!
# Verification of the osrm-interface request/dispatch layer

A shallow embedding of the `osrm-interface` Rust crate: the coordinate and
option value types, the per-service request builders with their `build`
validation, the mock backend's `route` operation, the remote backend's URL
serialization and error wrapping, the native backend's per-point array
flattening, and the polymorphic response-geometry decoder.

Machine floats (`f64`) are modelled by the type `F` below: either NaN, one of
the two infinities, or an exact rational value.  The source only compares,
stores and prints coordinates and radiuses (it never does float arithmetic on
them), so this model is exact for every operation the embedded code performs.
Error messages are modelled as plain strings; the source enriches some of them
with positional context, which never affects which constructor is returned.
-/

namespace OsrmInterface

/-- Model of `f64` as used by the crate: NaN, ±infinity, or an exact value. -/
inductive F where
  | nan : F
  | inf : F
  | ninf : F
  | val (q : ℚ) : F
deriving DecidableEq

/-- IEEE-754 `<=` on the float model: any comparison with NaN is false. -/
def F.fle : F → F → Bool
  | .nan, _ => false
  | _, .nan => false
  | .ninf, _ => true
  | _, .ninf => false
  | _, .inf => true
  | .inf, _ => false
  | .val a, .val b => decide (a ≤ b)

/-- IEEE-754 `>=` on the float model, `a >= b` is `b <= a`. -/
def F.fge (a b : F) : Bool := F.fle b a

def F.isNaN : F → Bool
  | .nan => true
  | _ => false

/-- `Point` from `lib.rs`: a validated (latitude, longitude) pair. -/
structure Point where
  latitude : F
  longitude : F
deriving DecidableEq

/-- `Point::new`: checks `-90 <= latitude <= 90 && -180 <= longitude <= 180`
via `RangeInclusive::contains` and returns `None` when the conjunction fails
(so any NaN coordinate fails both bounds checks). -/
def Point.new (latitude longitude : F) : Option Point :=
  if !(((F.val (-90)).fle latitude && latitude.fle (F.val 90)) &&
       ((F.val (-180)).fle longitude && longitude.fle (F.val 180))) then
    none
  else
    some { latitude := latitude, longitude := longitude }

/-- `Point::new_unchecked`: no bounds checking. -/
def Point.new_unchecked (latitude longitude : F) : Point :=
  { latitude := latitude, longitude := longitude }

/-- `Bearing` from `request_types.rs`: an `(i16, i16)` pair.  `i16` values are
embedded as mathematical integers; the source performs no arithmetic on them,
only range comparisons, so this is exact for every `i16` input. -/
structure Bearing where
  bearing : Int
  range : Int
deriving DecidableEq

/-- `Bearing::new` exactly as written in the source:
`if !(0..=360).contains(&bearing) & !(0..=180).contains(&range) { return None }`.
Note the single `&`: the construction is rejected only when BOTH values are
out of range (the doc comment above it claims both are checked). -/
def Bearing.new (bearing range : Int) : Option Bearing :=
  if (!(decide (0 ≤ bearing) && decide (bearing ≤ 360))) &&
     (!(decide (0 ≤ range) && decide (range ≤ 180))) then
    none
  else
    some { bearing := bearing, range := range }

/-- `Bearing::new_unchecked`. -/
def Bearing.new_unchecked (bearing range : Int) : Bearing :=
  { bearing := bearing, range := range }

/-- `Bearing::url_form`: `format!("{},{}", self.bearing, self.range)`. -/
def Bearing.url_form (b : Bearing) : String :=
  toString b.bearing ++ "," ++ toString b.range

/-- `impl Default for Bearing`: `{ bearing: 0, range: 180 }`. -/
def Bearing.default : Bearing := { bearing := 0, range := 180 }

/-- `GeometryType` from `request_types.rs`. -/
inductive GeometryType where
  | Polyline
  | Polyline6
  | GeoJSON
deriving DecidableEq

def GeometryType.url_form : GeometryType → String
  | .GeoJSON => "geojson"
  | .Polyline => "polyline"
  | .Polyline6 => "polyline6"

/-- `OverviewZoom` from `request_types.rs`. -/
inductive OverviewZoom where
  | Simplified
  | Full
  | False
deriving DecidableEq

def OverviewZoom.url_form : OverviewZoom → String
  | .Full => "full"
  | .Simplified => "simplified"
  | .False => "false"

/-- `Snapping` from `request_types.rs`. -/
inductive Snapping where
  | Default
  | Any
deriving DecidableEq

def Snapping.url_form : Snapping → String
  | .Default => "default"
  | .Any => "any"

/-- `CarExclude` from `request_types.rs`. -/
inductive CarExclude where
  | Toll
  | Motorway
  | Ferry
deriving DecidableEq

def CarExclude.as_str : CarExclude → String
  | .Toll => "toll"
  | .Motorway => "motorway"
  | .Ferry => "ferry"

/-- `BicycleExclude` from `request_types.rs`. -/
inductive BicycleExclude where
  | Ferry
deriving DecidableEq

def BicycleExclude.as_str : BicycleExclude → String
  | .Ferry => "ferry"

/-- `Exclude` from `request_types.rs`: a tagged choice of profile-specific
exclusions. -/
inductive Exclude where
  | Car (c : CarExclude)
  | Bicycle (b : BicycleExclude)
deriving DecidableEq

def Exclude.isCar : Exclude → Bool
  | .Car _ => true
  | .Bicycle _ => false

def Exclude.isBicycle : Exclude → Bool
  | .Car _ => false
  | .Bicycle _ => true

def Exclude.as_str : Exclude → String
  | .Car c => c.as_str
  | .Bicycle b => b.as_str

/-- `Approach` from `services/mod.rs`. -/
inductive Approach where
  | Curb
  | Opposite
  | Unrestricted
deriving DecidableEq

def Approach.url_form : Approach → String
  | .Curb => "curb"
  | .Opposite => "opposite"
  | .Unrestricted => "unrestricted"

/-- `DimensionMismatch` from `services/mod.rs`: which array-like option had a
length mismatch. -/
inductive DimensionMismatch where
  | Timestamps
  | Bearings
  | Radiuses
  | Hints
  | Approaches
deriving DecidableEq

end OsrmInterface

namespace OsrmInterface

/-- `MatchGapsBehaviour` from `services/match.rs`. -/
inductive MatchGapsBehaviour where
  | Split
  | Ignore
deriving DecidableEq

def MatchGapsBehaviour.url_form : MatchGapsBehaviour → String
  | .Split => "split"
  | .Ignore => "ignore"

/-- `TableAnnotation` from `services/table.rs`. -/
inductive TableAnnotation where
  | None
  | Duration
  | Distance
  | All
deriving DecidableEq

def TableAnnotation.url_form : TableAnnotation → String
  | .None => "none"
  | .Duration => "duration"
  | .Distance => "distance"
  | .All => "duration,distance"

/-- `TableFallbackCoordinate` from `services/table.rs`. -/
inductive TableFallbackCoordinate where
  | Input
  | Snapped
deriving DecidableEq

def TableFallbackCoordinate.url_form : TableFallbackCoordinate → String
  | .Input => "input"
  | .Snapped => "snapped"

/-- `TripSource` from `services/trip.rs`. -/
inductive TripSource where
  | Any
  | First
deriving DecidableEq

def TripSource.url_form : TripSource → String
  | .Any => "any"
  | .First => "first"

/-- `TripDestination` from `services/trip.rs`. -/
inductive TripDestination where
  | Any
  | Last
deriving DecidableEq

def TripDestination.url_form : TripDestination → String
  | .Any => "any"
  | .Last => "last"

/-- `RouteRequestError` from `services/route.rs`. -/
inductive RouteRequestError where
  | InsufficientPoints
  | DimensionMismatch (d : DimensionMismatch)
  | DifferentExcludeTypes
  | NegativeRadius
deriving DecidableEq

/-- `MatchRequestError` from `services/match.rs`. -/
inductive MatchRequestError where
  | InsufficientPoints
  | DimensionMismatch (d : DimensionMismatch)
  | TimestampsNotSorted
  | TimestampsRequiredForSplitBehaviour
  | EmptyWaypoints
  | WaypointIndexOutOfBounds (idx : Nat) (len : Nat)
  | DifferentExcludeTypes
  | NegativeRadius
deriving DecidableEq

/-- `TableRequestError` from `services/table.rs`. -/
inductive TableRequestError where
  | EmptySources
  | EmptyDestinations
  | NonPositiveFallbackSpeed
  | NonPositiveScaleFactor
  | IncompleteFallbackPair
  | ScaleFactorRequiresDuration
  | DimensionMismatch (d : DimensionMismatch)
  | DifferentExcludeTypes
  | NegativeRadius
deriving DecidableEq

/-- The length check shared by every `if let Some(xs) = ... if xs.len() != n`
early return in the builders: true when the option is supplied with the wrong
length. -/
def optLenMismatch (o : Option (List α)) (n : Nat) : Bool :=
  match o with
  | none => false
  | some l => decide (l.length ≠ n)

/-- The radius sign check from the builders:
`!radiuses.iter().all(|r| r.is_none_or(|v| v >= 0.0))`. -/
def negRadiuses (o : Option (List (Option F))) : Bool :=
  match o with
  | none => false
  | some l => !(l.all fun r =>
      match r with
      | none => true
      | some v => v.fge (F.val 0))

/-- The exclude homogeneity check from the builders: the list is non-empty and
not all of the same variant as its first element. -/
def mixedExcludes (o : Option (List Exclude)) : Bool :=
  match o with
  | none => false
  | some [] => false
  | some (e :: t) =>
    match e with
    | .Car _ => !((e :: t).all Exclude.isCar)
    | .Bicycle _ => !((e :: t).all Exclude.isBicycle)

/-- `RouteRequest` from `services/route.rs` (slices become lists). -/
structure RouteRequest where
  points : List Point
  alternatives : Bool
  steps : Bool
  geometry : GeometryType
  overview : OverviewZoom
  annotations : Bool
  continue_straight : Bool
  bearings : Option (List (Option Bearing))
  radiuses : Option (List (Option F))
  generate_hints : Bool
  hints : Option (List (Option String))
  approaches : Option (List Approach)
  exclude : Option (List Exclude)
  snapping : Option Snapping
  skip_waypoints : Bool
deriving DecidableEq

/-- `RouteRequestBuilder` from `services/route.rs`. -/
structure RouteRequestBuilder where
  points : List Point
  alternatives : Bool
  steps : Bool
  geometry : GeometryType
  overview : OverviewZoom
  annotations : Bool
  continue_straight : Bool
  bearings : Option (List (Option Bearing))
  radiuses : Option (List (Option F))
  generate_hints : Bool
  hints : Option (List (Option String))
  approaches : Option (List Approach)
  exclude : Option (List Exclude)
  snapping : Option Snapping
  skip_waypoints : Bool
deriving DecidableEq

/-- `RouteRequestBuilder::new` with its documented defaults. -/
def RouteRequestBuilder.new (points : List Point) : RouteRequestBuilder :=
  { points := points
    geometry := .Polyline
    overview := .Simplified
    alternatives := false
    steps := false
    annotations := false
    continue_straight := true
    bearings := none
    radiuses := none
    generate_hints := true
    hints := none
    approaches := none
    exclude := none
    snapping := none
    skip_waypoints := false }

/-- A builder's validation is a sequence of early returns: the first check
whose condition holds aborts the build with its error.  `firstFailure` returns
the error of the first triggered check, if any. -/
def firstFailure {E : Type} (checks : List (Bool × E)) : Option E :=
  (checks.find? fun c => c.1).map Prod.snd

/-- The ordered checks of `RouteRequestBuilder::build`: point floor, bearings
length, radiuses length, radius sign, hints length, approaches length,
exclude homogeneity. -/
def RouteRequestBuilder.checks (b : RouteRequestBuilder) :
    List (Bool × RouteRequestError) :=
  [(decide (b.points.length < 2), .InsufficientPoints),
   (optLenMismatch b.bearings b.points.length, .DimensionMismatch .Bearings),
   (optLenMismatch b.radiuses b.points.length, .DimensionMismatch .Radiuses),
   (negRadiuses b.radiuses, .NegativeRadius),
   (optLenMismatch b.hints b.points.length, .DimensionMismatch .Hints),
   (optLenMismatch b.approaches b.points.length, .DimensionMismatch .Approaches),
   (mixedExcludes b.exclude, .DifferentExcludeTypes)]

/-- `RouteRequestBuilder::build`: the first violated invariant (in source
order) aborts the build; otherwise the request record is produced. -/
def RouteRequestBuilder.build (b : RouteRequestBuilder) :
    Except RouteRequestError RouteRequest :=
  match firstFailure b.checks with
  | some e => .error e
  | none => .ok
    { points := b.points
      alternatives := b.alternatives
      steps := b.steps
      geometry := b.geometry
      overview := b.overview
      annotations := b.annotations
      continue_straight := b.continue_straight
      bearings := b.bearings
      radiuses := b.radiuses
      generate_hints := b.generate_hints
      hints := b.hints
      approaches := b.approaches
      exclude := b.exclude
      snapping := b.snapping
      skip_waypoints := b.skip_waypoints }

/-- `MatchRequest` from `services/match.rs`. -/
structure MatchRequest where
  points : List Point
  steps : Bool
  geometry : GeometryType
  overview : OverviewZoom
  annotations : Bool
  timestamps : Option (List Nat)
  gaps : MatchGapsBehaviour
  tidy : Bool
  waypoints : Option (List Nat)
  bearings : Option (List (Option Bearing))
  radiuses : Option (List (Option F))
  generate_hints : Bool
  hints : Option (List (Option String))
  approaches : Option (List Approach)
  exclude : Option (List Exclude)
  snapping : Option Snapping
  skip_waypoints : Bool
deriving DecidableEq

/-- `MatchRequestBuilder` from `services/match.rs`. -/
structure MatchRequestBuilder where
  points : List Point
  steps : Bool
  geometry : GeometryType
  overview : OverviewZoom
  annotations : Bool
  timestamps : Option (List Nat)
  gaps : MatchGapsBehaviour
  tidy : Bool
  waypoints : Option (List Nat)
  bearings : Option (List (Option Bearing))
  radiuses : Option (List (Option F))
  generate_hints : Bool
  hints : Option (List (Option String))
  approaches : Option (List Approach)
  exclude : Option (List Exclude)
  snapping : Option Snapping
  skip_waypoints : Bool
deriving DecidableEq

/-- `MatchRequestBuilder::new` with its documented defaults (gaps defaults to
`Split`). -/
def MatchRequestBuilder.new (points : List Point) : MatchRequestBuilder :=
  { points := points
    geometry := .Polyline
    overview := .Simplified
    steps := false
    annotations := false
    timestamps := none
    gaps := .Split
    tidy := false
    waypoints := none
    bearings := none
    radiuses := none
    generate_hints := true
    hints := none
    approaches := none
    exclude := none
    snapping := none
    skip_waypoints := false }

/-- `<[u64]>::is_sorted` as used by `MatchRequestBuilder::build`: true exactly
for non-decreasing sequences (ties allowed). -/
def isSortedB : List Nat → Bool
  | [] => true
  | [_] => true
  | a :: b :: t => decide (a ≤ b) && isSortedB (b :: t)

/-- True when the supplied timestamps have the wrong length. -/
def MatchRequestBuilder.tsLenBad (b : MatchRequestBuilder) : Bool :=
  optLenMismatch b.timestamps b.points.length

/-- True when the supplied timestamps are not sorted. -/
def MatchRequestBuilder.tsUnsorted (b : MatchRequestBuilder) : Bool :=
  match b.timestamps with
  | none => false
  | some ts => !isSortedB ts

/-- True when no timestamps were supplied while gaps behaviour is `Split`. -/
def MatchRequestBuilder.tsMissingForSplit (b : MatchRequestBuilder) : Bool :=
  match b.timestamps, b.gaps with
  | none, .Split => true
  | _, _ => false

/-- The supplied waypoint index list is empty. -/
def MatchRequestBuilder.wpEmpty (b : MatchRequestBuilder) : Bool :=
  match b.waypoints with
  | none => false
  | some w => w.isEmpty

/-- `waypoints.iter().max()` of the supplied waypoint list (0 when absent or
empty; only consulted when the list is non-empty). -/
def MatchRequestBuilder.wpMax (b : MatchRequestBuilder) : Nat :=
  match b.waypoints with
  | none => 0
  | some w => (w.max?).getD 0

/-- The maximal supplied waypoint index is out of bounds. -/
def MatchRequestBuilder.wpOob (b : MatchRequestBuilder) : Bool :=
  match b.waypoints with
  | none => false
  | some w =>
    match w.max? with
    | none => false
    | some m => decide (b.points.length ≤ m)

/-- The ordered checks of `MatchRequestBuilder::build`: point floor;
timestamps (length, then sortedness) or, when absent, the `Split` requirement;
waypoints (emptiness, bound on the maximal index); bearings length; radiuses
length and sign; hints length; approaches length; exclude homogeneity. -/
def MatchRequestBuilder.checks (b : MatchRequestBuilder) :
    List (Bool × MatchRequestError) :=
  [(decide (b.points.length < 2), .InsufficientPoints),
   (b.tsLenBad, .DimensionMismatch .Timestamps),
   (b.tsUnsorted, .TimestampsNotSorted),
   (b.tsMissingForSplit, .TimestampsRequiredForSplitBehaviour),
   (b.wpEmpty, .EmptyWaypoints),
   (b.wpOob, .WaypointIndexOutOfBounds b.wpMax b.points.length),
   (optLenMismatch b.bearings b.points.length, .DimensionMismatch .Bearings),
   (optLenMismatch b.radiuses b.points.length, .DimensionMismatch .Radiuses),
   (negRadiuses b.radiuses, .NegativeRadius),
   (optLenMismatch b.hints b.points.length, .DimensionMismatch .Hints),
   (optLenMismatch b.approaches b.points.length, .DimensionMismatch .Approaches),
   (mixedExcludes b.exclude, .DifferentExcludeTypes)]

/-- `MatchRequestBuilder::build`: the first violated invariant (in source
order) aborts the build; otherwise the request record is produced. -/
def MatchRequestBuilder.build (b : MatchRequestBuilder) :
    Except MatchRequestError MatchRequest :=
  match firstFailure b.checks with
  | some e => .error e
  | none => .ok
    { points := b.points
      steps := b.steps
      geometry := b.geometry
      overview := b.overview
      annotations := b.annotations
      timestamps := b.timestamps
      gaps := b.gaps
      tidy := b.tidy
      waypoints := b.waypoints
      bearings := b.bearings
      radiuses := b.radiuses
      generate_hints := b.generate_hints
      hints := b.hints
      approaches := b.approaches
      exclude := b.exclude
      snapping := b.snapping
      skip_waypoints := b.skip_waypoints }

/-- `TableRequest` from `services/table.rs`. -/
structure TableRequest where
  sources : List Point
  destinations : List Point
  annotations : TableAnnotation
  fallback_speed : Option F
  fallback_coordinate : Option TableFallbackCoordinate
  scale_factor : Option F
  source_bearings : Option (List (Option Bearing))
  destination_bearings : Option (List (Option Bearing))
  source_radiuses : Option (List (Option F))
  destination_radiuses : Option (List (Option F))
  generate_hints : Bool
  source_hints : Option (List (Option String))
  destination_hints : Option (List (Option String))
  source_approaches : Option (List Approach)
  destination_approaches : Option (List Approach)
  exclude : Option (List Exclude)
  snapping : Option Snapping
deriving DecidableEq

/-- `TableRequestBuilder` from `services/table.rs`. -/
structure TableRequestBuilder where
  sources : List Point
  destinations : List Point
  annotations : TableAnnotation
  fallback_speed : Option F
  fallback_coordinate : Option TableFallbackCoordinate
  scale_factor : Option F
  source_bearings : Option (List (Option Bearing))
  destination_bearings : Option (List (Option Bearing))
  source_radiuses : Option (List (Option F))
  destination_radiuses : Option (List (Option F))
  generate_hints : Bool
  source_hints : Option (List (Option String))
  destination_hints : Option (List (Option String))
  source_approaches : Option (List Approach)
  destination_approaches : Option (List Approach)
  exclude : Option (List Exclude)
  snapping : Option Snapping
deriving DecidableEq

/-- `TableRequestBuilder::new` with its documented defaults. -/
def TableRequestBuilder.new (sources destinations : List Point) :
    TableRequestBuilder :=
  { sources := sources
    destinations := destinations
    annotations := .Duration
    fallback_speed := none
    fallback_coordinate := none
    scale_factor := none
    source_bearings := none
    destination_bearings := none
    source_radiuses := none
    destination_radiuses := none
    generate_hints := true
    source_hints := none
    destination_hints := none
    source_approaches := none
    destination_approaches := none
    exclude := none
    snapping := none }

/-- `if let Some(s) = ... if s <= 0.0` on an optional float. -/
def optNonPositive (o : Option F) : Bool :=
  match o with
  | none => false
  | some s => s.fle (F.val 0)

/-- The ordered checks of `TableRequestBuilder::build`: empty sources, empty
destinations, non-positive fallback speed, non-positive scale factor,
incomplete fallback pair (xor), scale factor without duration annotations,
then the per-array length/sign checks over sources and destinations, then
exclude homogeneity. -/
def TableRequestBuilder.checks (b : TableRequestBuilder) :
    List (Bool × TableRequestError) :=
  [(b.sources.isEmpty, .EmptySources),
   (b.destinations.isEmpty, .EmptyDestinations),
   (optNonPositive b.fallback_speed, .NonPositiveFallbackSpeed),
   (optNonPositive b.scale_factor, .NonPositiveScaleFactor),
   (xor b.fallback_coordinate.isSome b.fallback_speed.isSome,
     .IncompleteFallbackPair),
   (b.scale_factor.isSome &&
     (b.annotations == .None || b.annotations == .Distance),
     .ScaleFactorRequiresDuration),
   (optLenMismatch b.source_bearings b.sources.length,
     .DimensionMismatch .Bearings),
   (optLenMismatch b.destination_bearings b.destinations.length,
     .DimensionMismatch .Bearings),
   (optLenMismatch b.source_radiuses b.sources.length,
     .DimensionMismatch .Radiuses),
   (negRadiuses b.source_radiuses, .NegativeRadius),
   (optLenMismatch b.destination_radiuses b.destinations.length,
     .DimensionMismatch .Radiuses),
   (negRadiuses b.destination_radiuses, .NegativeRadius),
   (optLenMismatch b.source_hints b.sources.length,
     .DimensionMismatch .Hints),
   (optLenMismatch b.destination_hints b.destinations.length,
     .DimensionMismatch .Hints),
   (optLenMismatch b.source_approaches b.sources.length,
     .DimensionMismatch .Approaches),
   (optLenMismatch b.destination_approaches b.destinations.length,
     .DimensionMismatch .Approaches),
   (mixedExcludes b.exclude, .DifferentExcludeTypes)]

/-- `TableRequestBuilder::build`: the first violated invariant (in source
order) aborts the build; otherwise the request record is produced. -/
def TableRequestBuilder.build (b : TableRequestBuilder) :
    Except TableRequestError TableRequest :=
  match firstFailure b.checks with
  | some e => .error e
  | none => .ok
    { sources := b.sources
      destinations := b.destinations
      annotations := b.annotations
      fallback_speed := b.fallback_speed
      fallback_coordinate := b.fallback_coordinate
      scale_factor := b.scale_factor
      source_bearings := b.source_bearings
      destination_bearings := b.destination_bearings
      source_radiuses := b.source_radiuses
      destination_radiuses := b.destination_radiuses
      generate_hints := b.generate_hints
      source_hints := b.source_hints
      destination_hints := b.destination_hints
      source_approaches := b.source_approaches
      destination_approaches := b.destination_approaches
      exclude := b.exclude
      snapping := b.snapping }

/-- `TripRequest` from `services/trip.rs` (needed for the native backend's
argument flattening; its builder is not embedded here). -/
structure TripRequest where
  points : List Point
  steps : Bool
  annotations : Bool
  geometry : GeometryType
  overview : OverviewZoom
  roundtrip : Bool
  source : TripSource
  destination : TripDestination
  bearings : Option (List (Option Bearing))
  radiuses : Option (List (Option F))
  generate_hints : Bool
  hints : Option (List (Option String))
  approaches : Option (List Approach)
  exclude : Option (List Exclude)
  snapping : Option Snapping
  skip_waypoints : Bool
deriving DecidableEq

/-- Unfolding `firstFailure` one check at a time. -/
theorem firstFailure_cons {E : Type} (c : Bool) (e : E) (t : List (Bool × E)) :
    firstFailure ((c, e) :: t) = if c then some e else firstFailure t := by
  cases c <;> simp [firstFailure, List.find?]

/-- An error reported by `firstFailure` comes from a triggered check. -/
theorem firstFailure_some_mem {E : Type} {l : List (Bool × E)} {e : E}
    (h : firstFailure l = some e) : ∃ p, p ∈ l ∧ p.1 = true ∧ p.2 = e := by
  unfold firstFailure at h
  rcases hf : l.find? (fun c => c.1) with _ | p
  · rw [hf] at h
    exact absurd h (by simp)
  · have hm := List.mem_of_find?_eq_some hf
    have hp := List.find?_some hf
    rw [hf] at h
    refine ⟨p, hm, by simpa using hp, by simpa using h⟩

/-- When no check is triggered, `firstFailure` reports nothing. -/
theorem firstFailure_none {E : Type} {l : List (Bool × E)}
    (h : ∀ p ∈ l, p.1 = false) : firstFailure l = none := by
  unfold firstFailure
  rcases hf : l.find? (fun c => c.1) with _ | p
  · rw [hf]
    rfl
  · have h1 := List.find?_some hf
    have h2 := h p (List.mem_of_find?_eq_some hf)
    simp_all

/-- `GeoJsonLineString` from `osrm_response_types.rs`.  The `coordinates`
entries are `[longitude, latitude]` pairs. -/
structure GeoJsonLineString where
  type : String
  coordinates : List (F × F)
deriving DecidableEq

/-- `impl Default for GeoJsonLineString`. -/
def GeoJsonLineString.default : GeoJsonLineString :=
  { type := "LineString"
    coordinates :=
      [(F.val (120 : ℚ), F.val (10 : ℚ)),
       (F.val ((1201 : ℚ)/10), F.val (10 : ℚ)),
       (F.val ((1202 : ℚ)/10), F.val (10 : ℚ)),
       (F.val ((1203 : ℚ)/10), F.val (10 : ℚ))] }

/-- `Geometry` from `osrm_response_types.rs`: a tagged choice between an
encoded polyline string and a GeoJSON LineString. -/
inductive Geometry where
  | Polyline (s : String)
  | GeoJson (g : GeoJsonLineString)
deriving DecidableEq

/-- `Metadata` from `osrm_response_types.rs`. -/
structure Metadata where
  datasource_names : List String
deriving DecidableEq

def Metadata.default : Metadata :=
  { datasource_names := ["lua profile"] }

/-- `Annotation` from `osrm_response_types.rs`. -/
structure Annotation where
  distance : List F
  duration : List F
  datasources : List Nat
  nodes : List F
  weight : List F
  speed : List F
  metadata : Metadata
deriving DecidableEq

def Annotation.default : Annotation :=
  { distance := [F.val 5, F.val 5, F.val 10, F.val 5, F.val 5]
    duration := [F.val 15, F.val 15, F.val 40, F.val 15, F.val 15]
    datasources := [1, 0, 0, 0, 1]
    nodes :=
      [F.val 49772551, F.val 49772552, F.val 49786799, F.val 49786800,
       F.val 49786801, F.val 49786802]
    weight := [F.val 15, F.val 15, F.val 40, F.val 15, F.val 15]
    speed := []
    metadata := Metadata.default }

/-- `DrivingSide` from `osrm_response_types.rs`. -/
inductive DrivingSide where
  | Right
  | Left
deriving DecidableEq

/-- `DrivingMode` from `osrm_response_types.rs`. -/
inductive DrivingMode where
  | Inaccessible
  | Driving
  | Cycling
  | Walking
  | Ferry
  | Train
  | PushingBike
  | StepsUp
  | StepsDown
  | RiverUpstream
  | RiverDownstream
  | Route
  | Other
deriving DecidableEq

/-- `Lane` from `osrm_response_types.rs`. -/
structure Lane where
  indications : List String
  valid : Bool
deriving DecidableEq

/-- `Intersection` from `osrm_response_types.rs`. -/
structure Intersection where
  location : F × F
  bearings : List Nat
  classes : Option (List String)
  entry : List Bool
  in_idx : Option Nat
  out_idx : Option Nat
  lanes : Option (List Lane)
deriving DecidableEq

/-- `StepManeuver` from `osrm_response_types.rs`. -/
structure StepManeuver where
  location : F × F
  bearing_before : F
  bearing_after : F
  type : String
  modifier : Option String
  exit : Option Nat
deriving DecidableEq

/-- `RouteStep` from `osrm_response_types.rs` (`r#ref` becomes `ref_code`). -/
structure RouteStep where
  distance : F
  duration : F
  weight : F
  name : String
  ref_code : Option String
  pronunciation : Option String
  destinations : Option String
  exits : Option String
  rotary_name : Option String
  rotary_pronunciation : Option String
  mode : DrivingMode
  maneuver : StepManeuver
  geometry : Geometry
  driving_side : DrivingSide
  intersections : List Intersection
deriving DecidableEq

/-- `RouteLeg` from `osrm_response_types.rs`. -/
structure RouteLeg where
  distance : F
  duration : F
  weight : F
  summary : String
  steps : List RouteStep
  annotation : Option Annotation
deriving DecidableEq

/-- `impl Default for RouteLeg`: empty steps, a default annotation block. -/
def RouteLeg.default : RouteLeg :=
  { distance := F.val 30
    duration := F.val 100
    weight := F.val 100
    summary := ""
    steps := []
    annotation := some Annotation.default }

/-- `Route` from `osrm_response_types.rs`. -/
structure Route where
  distance : F
  duration : F
  geometry : Option Geometry
  weight : F
  weight_name : String
  legs : List RouteLeg
deriving DecidableEq

/-- `impl Default for Route`: note the `legs` field holds exactly two default
legs. -/
def Route.default : Route :=
  { distance := F.val 90
    duration := F.val 300
    weight := F.val 300
    weight_name := "duration"
    geometry := some (Geometry.GeoJson GeoJsonLineString.default)
    legs := [RouteLeg.default, RouteLeg.default] }

/-- `Waypoint` as constructed by the mock engine (`hint` is optional there;
the `location` pair is stored in the order the mock writes it). -/
structure Waypoint where
  hint : Option String
  location : F × F
  name : String
  distance : F
deriving DecidableEq

/-- `RouteResponse` from `services/route.rs`. -/
structure RouteResponse where
  code : String
  routes : List Route
  waypoints : Option (List Waypoint)
deriving DecidableEq

/-- `NativeOsrmError` from `errors.rs`. -/
inductive NativeOsrmError where
  | Initialization (msg : String)
  | InvalidPath (msg : String)
  | JsonParse (msg : String)
  | FfiError (msg : String)
deriving DecidableEq

/-- `RemoteOsrmError` from `errors.rs`: `JsonParse` is the decode-failure
variant, `EndpointError` the transport/endpoint-failure variant. -/
inductive RemoteOsrmError where
  | JsonParse (msg : String)
  | EndpointError (msg : String)
deriving DecidableEq

/-- `OsrmError` from `errors.rs`, together with the `Invalid*Request`
variants that the remote engine module constructs. -/
inductive OsrmError where
  | EmptyResponse (msg : String)
  | Native (e : NativeOsrmError)
  | Remote (e : RemoteOsrmError)
  | InvalidRouteRequest
  | InvalidTableRequest
  | InvalidTripRequest
  | InvalidMatchRequest
deriving DecidableEq

/-- Decidable equality for `Except` results, used to evaluate the embedded
operations on concrete inputs. -/
instance instDecidableEqExcept {e a : Type} [DecidableEq e] [DecidableEq a] :
    DecidableEq (Except e a) := fun x y =>
  match x, y with
  | .ok u, .ok v =>
    if h : u = v then isTrue (by rw [h]) else
      isFalse (by intro hc; cases hc; exact h rfl)
  | .error u, .error v =>
    if h : u = v then isTrue (by rw [h]) else
      isFalse (by intro hc; cases hc; exact h rfl)
  | .ok _, .error _ => isFalse (by intro hc; cases hc)
  | .error _, .ok _ => isFalse (by intro hc; cases hc)

/-- `mock::OsrmEngine::route`: one default `Route` per consecutive pair of
points (`points.windows(2)`), and one echoed waypoint per point. -/
def mockRoute (route_request : RouteRequest) : Except OsrmError RouteResponse :=
  .ok
    { code := "Ok"
      routes := List.replicate (route_request.points.length - 1) Route.default
      waypoints := some (route_request.points.map fun p =>
        { hint := some "Mock hint"
          location := (p.latitude, p.longitude)
          name := "Mock name"
          distance := F.val 0 }) }

end OsrmInterface

namespace OsrmInterface

/-- C10: `Point::new` rejects any NaN coordinate, and every point it returns
has non-NaN coordinates with latitude in [-90, 90] and longitude in
[-180, 180] that are exactly the values passed at construction. -/
theorem point_new_spec (lat lon : F) :
    (lat.isNaN = true ∨ lon.isNaN = true → Point.new lat lon = none) ∧
    (∀ p, Point.new lat lon = some p →
      p.latitude.isNaN = false ∧ p.longitude.isNaN = false ∧
      (F.val (-90)).fle p.latitude = true ∧ p.latitude.fle (F.val 90) = true ∧
      (F.val (-180)).fle p.longitude = true ∧ p.longitude.fle (F.val 180) = true ∧
      p.latitude = lat ∧ p.longitude = lon) := by
  constructor
  · intro h
    unfold Point.new
    rcases h with h | h
    · cases lat <;> simp_all [F.isNaN, F.fle]
    · cases lon <;> cases lat <;> simp_all [F.isNaN, F.fle]
  · intro p hp
    unfold Point.new at hp
    split at hp
    · exact absurd hp (by simp)
    · rename_i hcond
      simp only [Bool.not_eq_true', Bool.not_eq_false] at hcond
      have h1 : (F.val (-90)).fle lat = true := by
        have := hcond
        simp [Bool.and_eq_true] at this
        exact this.1.1
      have h2 : lat.fle (F.val 90) = true := by
        have := hcond
        simp [Bool.and_eq_true] at this
        exact this.1.2
      have h3 : (F.val (-180)).fle lon = true := by
        have := hcond
        simp [Bool.and_eq_true] at this
        exact this.2.1
      have h4 : lon.fle (F.val 180) = true := by
        have := hcond
        simp [Bool.and_eq_true] at this
        exact this.2.2
      have hpe : p = { latitude := lat, longitude := lon } := by
        cases hp
        rfl
      subst hpe
      have hnl : lat.isNaN = false := by
        cases lat <;> simp_all [F.isNaN, F.fle]
      have hno : lon.isNaN = false := by
        cases lon <;> simp_all [F.isNaN, F.fle]
      exact ⟨hnl, hno, h1, h2, h3, h4, rfl, rfl⟩

/-- Witness for C10 at concrete inputs: a NaN latitude is rejected, and a
valid pair round-trips. -/
theorem point_new_spec_witness :
    Point.new F.nan (F.val 0) = none ∧
    ∀ p, Point.new (F.val 10) (F.val 20) = some p →
      p.latitude = F.val 10 ∧ p.longitude = F.val 20 :=
  ⟨(point_new_spec F.nan (F.val 0)).1 (Or.inl rfl),
   fun p hp => by
    have h := (point_new_spec (F.val 10) (F.val 20)).2 p hp
    exact ⟨h.2.2.2.2.2.2.1, h.2.2.2.2.2.2.2⟩⟩

/-- C2 (code bug evidence): `Bearing::new` accepts a bearing of 400 (outside
[0, 360]) when the range is in bounds, and accepts a range of -5 when the
bearing is in bounds, because the source combines the two out-of-range tests
with `&` instead of `|`; rejection happens only when both are out of range.
In-range pairs are accepted with exactly the given values, as claimed. -/
theorem bearing_new_and_bug :
    Bearing.new 400 90 = some { bearing := 400, range := 90 } ∧
    Bearing.new 0 (-5) = some { bearing := 0, range := -5 } ∧
    Bearing.new 400 (-5) = none ∧
    Bearing.new 90 90 = some { bearing := 90, range := 90 } := by
  decide

end OsrmInterface

namespace OsrmInterface

/-- The four valid example coordinates used throughout the crate's docs and
tests. -/
def pts4 : List Point :=
  [{ latitude := F.val ((48040437 : ℚ)/1000000), longitude := F.val ((10316550 : ℚ)/1000000) },
   { latitude := F.val ((49006101 : ℚ)/1000000), longitude := F.val ((9052887 : ℚ)/1000000) },
   { latitude := F.val ((48942296 : ℚ)/1000000), longitude := F.val ((10510960 : ℚ)/1000000) },
   { latitude := F.val ((51248931 : ℚ)/1000000), longitude := F.val ((7594814 : ℚ)/1000000) }]

/-- The route request produced by building `RouteRequestBuilder::new(&pts4)`
with every option left at its default. -/
def req4 : RouteRequest :=
  { points := pts4
    geometry := .Polyline
    overview := .Simplified
    alternatives := false
    steps := false
    annotations := false
    continue_straight := true
    bearings := none
    radiuses := none
    generate_hints := true
    hints := none
    approaches := none
    exclude := none
    snapping := none
    skip_waypoints := false }

/-- C3 (counterexample): four valid points with default options build
successfully, and the mock backend's route operation returns code `"Ok"` and
4 waypoints — but the response carries 3 routes of 2 default legs each, so the
leg count is 6 (and the first route has 2 legs), not 3 as claimed. -/
theorem mock_route_leg_count_counterexample :
    (pts4.all fun p => Point.new p.latitude p.longitude == some p) = true ∧
    (RouteRequestBuilder.new pts4).build = .ok req4 ∧
    ((mockRoute req4).toOption.map fun r => r.code) = some "Ok" ∧
    ((mockRoute req4).toOption.map fun r =>
        (r.routes.map fun rt => rt.legs.length).sum) = some 6 ∧
    ¬ (((mockRoute req4).toOption.map fun r =>
        (r.routes.map fun rt => rt.legs.length).sum) = some 3) ∧
    ((mockRoute req4).toOption.bind fun r =>
        r.routes.head?.map fun rt => rt.legs.length) = some 2 ∧
    ((mockRoute req4).toOption.map fun r => r.routes.length) = some 3 ∧
    ((mockRoute req4).toOption.bind fun r =>
        r.waypoints.map List.length) = some 4 := by
  refine ⟨?_, rfl, rfl, rfl, ?_, rfl, rfl, rfl⟩
  · simp only [pts4, Point.new, F.fle, List.all_cons, List.all_nil, Bool.and_true]
    norm_num
  · intro h
    exact absurd (Option.some.inj h) (by decide)

/-- C3 (amended): for any route request built from exactly four points with
the builder, the mock backend returns code `"Ok"`, a routes list of length 3
(points − 1, one default route per consecutive pair), each route carrying 2
default legs — hence 6 legs in total — and a waypoints list of length 4. -/
theorem mock_route_shape (b : RouteRequestBuilder) (req : RouteRequest)
    (hpts : b.points.length = 4) (hb : b.build = .ok req) :
    ∃ resp, mockRoute req = .ok resp ∧
      resp.code = "Ok" ∧
      resp.routes.length = 3 ∧
      (∀ rt ∈ resp.routes, rt.legs.length = 2) ∧
      (resp.routes.map fun rt => rt.legs.length).sum = 6 ∧
      ∃ wps, resp.waypoints = some wps ∧ wps.length = 4 := by
  have hreq : req.points = b.points := by
    unfold RouteRequestBuilder.build at hb
    rcases hf : firstFailure b.checks with _ | e
    · rw [hf] at hb
      have h := Except.ok.inj hb
      subst h
      rfl
    · rw [hf] at hb
      exact Except.noConfusion hb
  refine ⟨_, rfl, rfl, ?_, ?_, ?_, ?_⟩
  · simp [mockRoute, hreq, hpts]
  · intro rt hrt
    have : rt = Route.default := by
      simpa using List.eq_of_mem_replicate hrt
    subst this
    rfl
  · simp [mockRoute, hreq, hpts, List.map_replicate]
    rfl
  · refine ⟨_, rfl, ?_⟩
    simp [mockRoute, hreq, hpts]

/-- Witness for C3's amended theorem at the concrete four-point request. -/
theorem mock_route_shape_witness :
    ∃ resp, mockRoute req4 = .ok resp ∧
      resp.code = "Ok" ∧
      resp.routes.length = 3 ∧
      (∀ rt ∈ resp.routes, rt.legs.length = 2) ∧
      (resp.routes.map fun rt => rt.legs.length).sum = 6 ∧
      ∃ wps, resp.waypoints = some wps ∧ wps.length = 4 :=
  mock_route_shape (RouteRequestBuilder.new pts4) req4 rfl rfl

end OsrmInterface

namespace OsrmInterface

/-- `is_sorted` agrees with chained `≤` along the list. -/
theorem isSortedB_iff : ∀ l : List Nat, isSortedB l = true ↔ l.Chain' (· ≤ ·)
  | [] => by simp [isSortedB]
  | [a] => by simp [isSortedB]
  | a :: b :: t => by
    rw [isSortedB, List.chain'_cons, Bool.and_eq_true, decide_eq_true_eq,
      isSortedB_iff (b :: t)]

/-- After the timestamp checks pass, no later check of the match builder
returns `TimestampsNotSorted`. -/
theorem MatchRequestBuilder.build_ne_notSorted (b : MatchRequestBuilder)
    (h1 : ¬ b.points.length < 2) (h2 : b.tsLenBad = false)
    (h3 : b.tsUnsorted = false) :
    b.build ≠ .error .TimestampsNotSorted := by
  intro hb
  unfold MatchRequestBuilder.build at hb
  rcases hf : firstFailure b.checks with _ | e
  · rw [hf] at hb
    exact Except.noConfusion hb
  · rw [hf] at hb
    have he := Except.error.inj hb
    subst he
    rcases firstFailure_some_mem hf with ⟨p, hp, hp1, hp2⟩
    simp only [MatchRequestBuilder.checks, List.mem_cons,
      List.not_mem_nil, or_false] at hp
    rcases hp with rfl | rfl | rfl | rfl | rfl | rfl | rfl | rfl | rfl |
      rfl | rfl | rfl <;> simp_all

/-- C6: for a match builder with at least two points — supplied timestamps of
the wrong length give a `Timestamps` dimension mismatch; with matching length
the build fails with `TimestampsNotSorted` exactly when the sequence is not
non-decreasing (ties allowed); and absent timestamps under `Split` gaps
behaviour give `TimestampsRequiredForSplitBehaviour`. -/
theorem match_build_timestamps_spec (b : MatchRequestBuilder)
    (h2 : 2 ≤ b.points.length) :
    (∀ ts, b.timestamps = some ts →
      (ts.length ≠ b.points.length →
        b.build = .error (.DimensionMismatch .Timestamps)) ∧
      (ts.length = b.points.length →
        (b.build = .error .TimestampsNotSorted ↔ ¬ ts.Chain' (· ≤ ·)))) ∧
    (b.timestamps = none → b.gaps = .Split →
      b.build = .error .TimestampsRequiredForSplitBehaviour) := by
  have hnotlt : ¬ b.points.length < 2 := by omega
  have hd : decide (b.points.length < 2) = false := by simpa using hnotlt
  constructor
  · intro ts hts
    constructor
    · intro hlen
      have hbad : b.tsLenBad = true := by
        simp [MatchRequestBuilder.tsLenBad, optLenMismatch, hts, hlen]
      simp [MatchRequestBuilder.build, MatchRequestBuilder.checks,
        firstFailure_cons, hd, hbad]
    · intro hlen
      have hbad : b.tsLenBad = false := by
        simp [MatchRequestBuilder.tsLenBad, optLenMismatch, hts, hlen]
      constructor
      · intro hb hc
        have hsorted : isSortedB ts = true := (isSortedB_iff ts).mpr hc
        have hu : b.tsUnsorted = false := by
          simp [MatchRequestBuilder.tsUnsorted, hts, hsorted]
        exact b.build_ne_notSorted hnotlt hbad hu hb
      · intro hc
        have hsorted : isSortedB ts = false := by
          rcases h : isSortedB ts with _ | _
          · rfl
          · exact absurd ((isSortedB_iff ts).mp h) hc
        have hu : b.tsUnsorted = true := by
          simp [MatchRequestBuilder.tsUnsorted, hts, hsorted]
        simp [MatchRequestBuilder.build, MatchRequestBuilder.checks,
          firstFailure_cons, hd, hbad, hu]
  · intro hts hgaps
    have hbad : b.tsLenBad = false := by
      simp [MatchRequestBuilder.tsLenBad, optLenMismatch, hts]
    have hu : b.tsUnsorted = false := by
      simp [MatchRequestBuilder.tsUnsorted, hts]
    have hm : b.tsMissingForSplit = true := by
      simp [MatchRequestBuilder.tsMissingForSplit, hts, hgaps]
    simp [MatchRequestBuilder.build, MatchRequestBuilder.checks,
      firstFailure_cons, hd, hbad, hu, hm]

/-- Two integer-coordinate points, used as concrete builder inputs. -/
def pts2 : List Point :=
  [{ latitude := F.val 48, longitude := F.val 10 },
   { latitude := F.val 49, longitude := F.val 9 }]

/-- A match builder over `pts2` carrying unsorted timestamps. -/
def matchBuilderUnsorted : MatchRequestBuilder :=
  { MatchRequestBuilder.new pts2 with timestamps := some [3, 1] }

/-- A match builder over `pts2` with no timestamps and default (`Split`)
gaps behaviour. -/
def matchBuilderNoTs : MatchRequestBuilder := MatchRequestBuilder.new pts2

/-- Witness for C6 at concrete inputs: unsorted timestamps of matching length
are rejected as unsorted, and `Split` without timestamps is rejected. -/
theorem match_build_timestamps_spec_witness :
    matchBuilderUnsorted.build = .error .TimestampsNotSorted ∧
    matchBuilderNoTs.build = .error .TimestampsRequiredForSplitBehaviour :=
  ⟨(((match_build_timestamps_spec matchBuilderUnsorted (by decide)).1
      [3, 1] rfl).2 rfl).mpr (by simp),
   (match_build_timestamps_spec matchBuilderNoTs (by decide)).2 rfl rfl⟩

end OsrmInterface

namespace OsrmInterface

/-- Whether the route builder's array option named by a `DimensionMismatch`
tag is supplied with the wrong length. -/
def RouteRequestBuilder.mismatchAt (b : RouteRequestBuilder) :
    DimensionMismatch → Bool
  | .Timestamps => false
  | .Bearings => optLenMismatch b.bearings b.points.length
  | .Radiuses => optLenMismatch b.radiuses b.points.length
  | .Hints => optLenMismatch b.hints b.points.length
  | .Approaches => optLenMismatch b.approaches b.points.length

/-- Some route builder array option is supplied with the wrong length. -/
def RouteRequestBuilder.anyMismatch (b : RouteRequestBuilder) : Bool :=
  b.mismatchAt .Bearings || b.mismatchAt .Radiuses ||
  b.mismatchAt .Hints || b.mismatchAt .Approaches

/-- Whether a table builder array option named by a `DimensionMismatch` tag is
supplied with the wrong length (checked against sources and destinations
independently). -/
def TableRequestBuilder.mismatchAt (b : TableRequestBuilder) :
    DimensionMismatch → Bool
  | .Timestamps => false
  | .Bearings =>
    optLenMismatch b.source_bearings b.sources.length ||
    optLenMismatch b.destination_bearings b.destinations.length
  | .Radiuses =>
    optLenMismatch b.source_radiuses b.sources.length ||
    optLenMismatch b.destination_radiuses b.destinations.length
  | .Hints =>
    optLenMismatch b.source_hints b.sources.length ||
    optLenMismatch b.destination_hints b.destinations.length
  | .Approaches =>
    optLenMismatch b.source_approaches b.sources.length ||
    optLenMismatch b.destination_approaches b.destinations.length

/-- Some table builder array option is supplied with the wrong length. -/
def TableRequestBuilder.anyMismatch (b : TableRequestBuilder) : Bool :=
  b.mismatchAt .Bearings || b.mismatchAt .Radiuses ||
  b.mismatchAt .Hints || b.mismatchAt .Approaches

/-- A route builder over a single point carrying a mismatched bearings
array. -/
def routeBuilderOnePoint : RouteRequestBuilder :=
  { RouteRequestBuilder.new [{ latitude := F.val 48, longitude := F.val 10 }]
      with bearings := some [none, none, none] }

/-- A table builder with one source and one destination whose fallback speed
is set without a fallback coordinate. -/
def tableBuilderHalfFallback : TableRequestBuilder :=
  { TableRequestBuilder.new pts2 pts2 with fallback_speed := some (F.val 1) }

/-- C7 (counterexample): with one point and a mismatched (supplied) bearings
array, the route build fails with `InsufficientPoints`, not a dimension
mismatch naming bearings; and a table builder meeting every condition the
claim lists for success (non-empty floors, no mismatched arrays, non-negative
radiuses, homogeneous excludes) still fails, with `IncompleteFallbackPair`,
because its fallback speed is set without a fallback coordinate. -/
theorem builder_dimension_counterexample :
    routeBuilderOnePoint.mismatchAt .Bearings = true ∧
    routeBuilderOnePoint.build = .error .InsufficientPoints ∧
    ¬ routeBuilderOnePoint.build = .error (.DimensionMismatch .Bearings) ∧
    tableBuilderHalfFallback.anyMismatch = false ∧
    negRadiuses tableBuilderHalfFallback.source_radiuses = false ∧
    negRadiuses tableBuilderHalfFallback.destination_radiuses = false ∧
    mixedExcludes tableBuilderHalfFallback.exclude = false ∧
    tableBuilderHalfFallback.build = .error .IncompleteFallbackPair := by
  refine ⟨rfl, rfl, ?_, rfl, rfl, rfl, rfl, rfl⟩
  intro h
  exact absurd (Except.error.inj h) (by decide)

/-- C7 (amended): for the route builder with the point floor met and all
supplied radiuses non-negative, a supplied per-point array of the wrong
length makes `build` fail with a `DimensionMismatch` naming a mismatched
option, and with no mismatch and homogeneous excludes `build` succeeds; the
same holds for the table builder over sources and destinations independently,
provided its fallback pair is complete, fallback speed and scale factor are
positive where set, and a set scale factor comes with duration annotations. -/
theorem builders_dimension_spec :
    (∀ b : RouteRequestBuilder, 2 ≤ b.points.length →
      negRadiuses b.radiuses = false →
      ((b.anyMismatch = true →
        ∃ d, b.build = .error (.DimensionMismatch d) ∧ b.mismatchAt d = true) ∧
       (b.anyMismatch = false → mixedExcludes b.exclude = false →
        ∃ r, b.build = .ok r))) ∧
    (∀ t : TableRequestBuilder, t.sources ≠ [] → t.destinations ≠ [] →
      optNonPositive t.fallback_speed = false →
      optNonPositive t.scale_factor = false →
      xor t.fallback_coordinate.isSome t.fallback_speed.isSome = false →
      (t.scale_factor.isSome &&
        (t.annotations == .None || t.annotations == .Distance)) = false →
      negRadiuses t.source_radiuses = false →
      negRadiuses t.destination_radiuses = false →
      ((t.anyMismatch = true →
        ∃ d, t.build = .error (.DimensionMismatch d) ∧ t.mismatchAt d = true) ∧
       (t.anyMismatch = false → mixedExcludes t.exclude = false →
        ∃ r, t.build = .ok r))) := by
  constructor
  · intro b hfloor hrad
    have hd : decide (b.points.length < 2) = false := by
      simp only [decide_eq_false_iff_not]
      omega
    constructor
    · intro hmis
      by_cases hB : optLenMismatch b.bearings b.points.length = true
      · refine ⟨.Bearings, ?_, by simp [RouteRequestBuilder.mismatchAt, hB]⟩
        simp [RouteRequestBuilder.build, RouteRequestBuilder.checks,
          firstFailure_cons, hd, hB]
      · have hB0 : optLenMismatch b.bearings b.points.length = false := by
          simpa using hB
        by_cases hR : optLenMismatch b.radiuses b.points.length = true
        · refine ⟨.Radiuses, ?_, by simp [RouteRequestBuilder.mismatchAt, hR]⟩
          simp [RouteRequestBuilder.build, RouteRequestBuilder.checks,
            firstFailure_cons, hd, hB0, hR]
        · have hR0 : optLenMismatch b.radiuses b.points.length = false := by
            simpa using hR
          by_cases hH : optLenMismatch b.hints b.points.length = true
          · refine ⟨.Hints, ?_, by simp [RouteRequestBuilder.mismatchAt, hH]⟩
            simp [RouteRequestBuilder.build, RouteRequestBuilder.checks,
              firstFailure_cons, hd, hB0, hR0, hrad, hH]
          · have hH0 : optLenMismatch b.hints b.points.length = false := by
              simpa using hH
            by_cases hA : optLenMismatch b.approaches b.points.length = true
            · refine ⟨.Approaches, ?_,
                by simp [RouteRequestBuilder.mismatchAt, hA]⟩
              simp [RouteRequestBuilder.build, RouteRequestBuilder.checks,
                firstFailure_cons, hd, hB0, hR0, hrad, hH0, hA]
            · have hA0 : optLenMismatch b.approaches b.points.length = false :=
                by simpa using hA
              exact absurd hmis (by
                simp [RouteRequestBuilder.anyMismatch,
                  RouteRequestBuilder.mismatchAt, hB0, hR0, hH0, hA0])
    · intro hnomis hexcl
      simp only [RouteRequestBuilder.anyMismatch, RouteRequestBuilder.mismatchAt,
        Bool.or_eq_false_iff] at hnomis
      obtain ⟨⟨⟨hB0, hR0⟩, hH0⟩, hA0⟩ := hnomis
      have hnone : firstFailure b.checks = none := by
        apply firstFailure_none
        intro p hp
        simp only [RouteRequestBuilder.checks, List.mem_cons,
          List.not_mem_nil, or_false] at hp
        rcases hp with rfl | rfl | rfl | rfl | rfl | rfl | rfl <;> simp_all
      rcases hx : b.build with e | r
      · unfold RouteRequestBuilder.build at hx
        rw [hnone] at hx
        exact Except.noConfusion hx
      · exact ⟨r, rfl⟩
  · intro t hs hdst hfs hsf hxorp hscale hsr hdr
    have hsE : t.sources.isEmpty = false := by
      cases hx : t.sources with
      | nil => exact absurd hx hs
      | cons a l => rfl
    have hdE : t.destinations.isEmpty = false := by
      cases hx : t.destinations with
      | nil => exact absurd hx hdst
      | cons a l => rfl
    constructor
    · intro hmis
      by_cases hSB : optLenMismatch t.source_bearings t.sources.length = true
      · refine ⟨.Bearings, ?_, by simp [TableRequestBuilder.mismatchAt, hSB]⟩
        simp [TableRequestBuilder.build, TableRequestBuilder.checks,
          firstFailure_cons, hsE, hdE, hfs, hsf, hxorp, hscale, hSB]
      · have hSB0 : optLenMismatch t.source_bearings t.sources.length = false :=
          by simpa using hSB
        by_cases hDB :
            optLenMismatch t.destination_bearings t.destinations.length = true
        · refine ⟨.Bearings, ?_, by simp [TableRequestBuilder.mismatchAt, hDB]⟩
          simp [TableRequestBuilder.build, TableRequestBuilder.checks,
            firstFailure_cons, hsE, hdE, hfs, hsf, hxorp, hscale, hSB0, hDB]
        · have hDB0 :
              optLenMismatch t.destination_bearings t.destinations.length =
                false := by simpa using hDB
          by_cases hSR :
              optLenMismatch t.source_radiuses t.sources.length = true
          · refine ⟨.Radiuses, ?_,
              by simp [TableRequestBuilder.mismatchAt, hSR]⟩
            simp [TableRequestBuilder.build, TableRequestBuilder.checks,
              firstFailure_cons, hsE, hdE, hfs, hsf, hxorp, hscale, hSB0,
              hDB0, hSR]
          · have hSR0 :
                optLenMismatch t.source_radiuses t.sources.length = false := by
              simpa using hSR
            by_cases hDR :
                optLenMismatch t.destination_radiuses t.destinations.length =
                  true
            · refine ⟨.Radiuses, ?_,
                by simp [TableRequestBuilder.mismatchAt, hDR]⟩
              simp [TableRequestBuilder.build, TableRequestBuilder.checks,
                firstFailure_cons, hsE, hdE, hfs, hsf, hxorp, hscale, hSB0,
                hDB0, hSR0, hsr, hDR]
            · have hDR0 :
                  optLenMismatch t.destination_radiuses t.destinations.length =
                    false := by simpa using hDR
              by_cases hSH :
                  optLenMismatch t.source_hints t.sources.length = true
              · refine ⟨.Hints, ?_,
                  by simp [TableRequestBuilder.mismatchAt, hSH]⟩
                simp [TableRequestBuilder.build, TableRequestBuilder.checks,
                  firstFailure_cons, hsE, hdE, hfs, hsf, hxorp, hscale, hSB0,
                  hDB0, hSR0, hsr, hDR0, hdr, hSH]
              · have hSH0 :
                    optLenMismatch t.source_hints t.sources.length = false := by
                  simpa using hSH
                by_cases hDH :
                    optLenMismatch t.destination_hints t.destinations.length =
                      true
                · refine ⟨.Hints, ?_,
                    by simp [TableRequestBuilder.mismatchAt, hDH]⟩
                  simp [TableRequestBuilder.build, TableRequestBuilder.checks,
                    firstFailure_cons, hsE, hdE, hfs, hsf, hxorp, hscale,
                    hSB0, hDB0, hSR0, hsr, hDR0, hdr, hSH0, hDH]
                · have hDH0 :
                      optLenMismatch t.destination_hints
                        t.destinations.length = false := by simpa using hDH
                  by_cases hSA :
                      optLenMismatch t.source_approaches t.sources.length =
                        true
                  · refine ⟨.Approaches, ?_,
                      by simp [TableRequestBuilder.mismatchAt, hSA]⟩
                    simp [TableRequestBuilder.build,
                      TableRequestBuilder.checks, firstFailure_cons, hsE, hdE,
                      hfs, hsf, hxorp, hscale, hSB0, hDB0, hSR0, hsr, hDR0,
                      hdr, hSH0, hDH0, hSA]
                  · have hSA0 :
                        optLenMismatch t.source_approaches t.sources.length =
                          false := by simpa using hSA
                    by_cases hDA :
                        optLenMismatch t.destination_approaches
                          t.destinations.length = true
                    · refine ⟨.Approaches, ?_,
                        by simp [TableRequestBuilder.mismatchAt, hDA]⟩
                      simp [TableRequestBuilder.build,
                        TableRequestBuilder.checks, firstFailure_cons, hsE,
                        hdE, hfs, hsf, hxorp, hscale, hSB0, hDB0, hSR0, hsr,
                        hDR0, hdr, hSH0, hDH0, hSA0, hDA]
                    · have hDA0 :
                          optLenMismatch t.destination_approaches
                            t.destinations.length = false := by simpa using hDA
                      exact absurd hmis (by
                        simp [TableRequestBuilder.anyMismatch,
                          TableRequestBuilder.mismatchAt, hSB0, hDB0, hSR0,
                          hDR0, hSH0, hDH0, hSA0, hDA0])
    · intro hnomis hexcl
      simp only [TableRequestBuilder.anyMismatch, TableRequestBuilder.mismatchAt,
        Bool.or_eq_false_iff] at hnomis
      obtain ⟨⟨⟨⟨hSB0, hDB0⟩, hSR0, hDR0⟩, hSH0, hDH0⟩, hSA0, hDA0⟩ := hnomis
      have hnone : firstFailure t.checks = none := by
        apply firstFailure_none
        intro p hp
        simp only [TableRequestBuilder.checks, List.mem_cons,
          List.not_mem_nil, or_false] at hp
        rcases hp with rfl | rfl | rfl | rfl | rfl | rfl | rfl | rfl | rfl |
          rfl | rfl | rfl | rfl | rfl | rfl | rfl | rfl <;> simp_all
      rcases hx : t.build with e | r
      · unfold TableRequestBuilder.build at hx
        rw [hnone] at hx
        exact Except.noConfusion hx
      · exact ⟨r, rfl⟩

/-- A route builder over two points carrying a mismatched bearings array. -/
def routeBuilderMismatch : RouteRequestBuilder :=
  { RouteRequestBuilder.new pts2 with bearings := some [none, none, none] }

/-- Witness for C7's amended theorem at concrete inputs: a two-point route
builder with a three-entry bearings array fails with a dimension mismatch at a
mismatched option, and a plain two-by-two table builder builds successfully. -/
theorem builders_dimension_spec_witness :
    (∃ d, routeBuilderMismatch.build = .error (.DimensionMismatch d) ∧
      routeBuilderMismatch.mismatchAt d = true) ∧
    (∃ r, (TableRequestBuilder.new pts2 pts2).build = .ok r) :=
  ⟨(builders_dimension_spec.1 routeBuilderMismatch (by decide) rfl).1 rfl,
   (builders_dimension_spec.2 (TableRequestBuilder.new pts2 pts2)
      (by decide) (by decide) rfl rfl rfl rfl rfl rfl).2 rfl rfl⟩

end OsrmInterface

namespace OsrmInterface

/-- `Osrm::route` in `native/mod.rs`: flatten the optional bearings into a
buffer using `bearing.unwrap_or_default()`; an absent option gives an empty
buffer. -/
def nativeRouteBearings (r : RouteRequest) : List Bearing :=
  match r.bearings with
  | some bearings => bearings.map fun b => b.getD Bearing.default
  | none => []

/-- `Osrm::route` in `native/mod.rs`: flatten the optional radiuses with
`f.unwrap_or(f64::INFINITY)`; an absent option fills the whole buffer with
infinity. -/
def nativeRouteRadiuses (r : RouteRequest) : List F :=
  match r.radiuses with
  | some rad => rad.map fun f => f.getD F.inf
  | none => List.replicate r.points.length F.inf

/-- `Osrm::route` in `native/mod.rs`: flatten the optional hints with
`hint.unwrap_or("")`; an absent option gives an empty buffer. -/
def nativeRouteHints (r : RouteRequest) : List String :=
  match r.hints with
  | some hints => hints.map fun h => h.getD ""
  | none => []

/-- `Osrm::trip` in `native/mod.rs`: identical radius flattening. -/
def nativeTripRadiuses (r : TripRequest) : List F :=
  match r.radiuses with
  | some rad => rad.map fun f => f.getD F.inf
  | none => List.replicate r.points.length F.inf

/-- `Osrm::match` in `native/mod.rs`: identical radius flattening. -/
def nativeMatchRadiuses (r : MatchRequest) : List F :=
  match r.radiuses with
  | some rad => rad.map fun f => f.getD F.inf
  | none => List.replicate r.points.length F.inf

/-- The overwrite loops of `Osrm::table` in `native/mod.rs`:
`for (i, r) in xs.iter().enumerate() { if let Some(r) = r { buf[off + i] = *r } }`. -/
def overwriteSome {α : Type} (base : List α) (off : Nat)
    (entries : List (Option α)) : List α :=
  entries.enum.foldl
    (fun acc p =>
      match p.2 with
      | some v => acc.set (off + p.1) v
      | none => acc)
    base

/-- `Osrm::table` in `native/mod.rs`: when either radius option is supplied,
the buffer is initialised as `vec![0.0; len_sources + len_destinations]` and
supplied entries overwrite their positions — an unset entry keeps the 0.0
fill, not infinity. -/
def nativeTableRadiuses (t : TableRequest) : List F :=
  if t.source_radiuses.isSome || t.destination_radiuses.isSome then
    let base :=
      List.replicate (t.sources.length + t.destinations.length) (F.val 0)
    let base :=
      match t.source_radiuses with
      | some rs => overwriteSome base 0 rs
      | none => base
    match t.destination_radiuses with
    | some rs => overwriteSome base t.sources.length rs
    | none => base
  else []

/-- `Osrm::table` in `native/mod.rs`: bearings flatten over a buffer filled
with the default bearing. -/
def nativeTableBearings (t : TableRequest) : List Bearing :=
  if t.source_bearings.isSome || t.destination_bearings.isSome then
    let base :=
      List.replicate (t.sources.length + t.destinations.length) Bearing.default
    let base :=
      match t.source_bearings with
      | some bs => overwriteSome base 0 bs
      | none => base
    match t.destination_bearings with
    | some bs => overwriteSome base t.sources.length bs
    | none => base
  else []

/-- `Osrm::table` in `native/mod.rs`: hints flatten over a buffer filled with
the empty string. -/
def nativeTableHints (t : TableRequest) : List String :=
  if t.source_hints.isSome || t.destination_hints.isSome then
    let base :=
      List.replicate (t.sources.length + t.destinations.length) ""
    let base :=
      match t.source_hints with
      | some hs => overwriteSome base 0 hs
      | none => base
    match t.destination_hints with
    | some hs => overwriteSome base t.sources.length hs
    | none => base
  else []

/-- A route request with per-point options unset at index 0 and set at
index 1, for evaluating the native flattening. -/
def reqFlatRoute : RouteRequest :=
  { req4 with
    bearings := some [none, some { bearing := 90, range := 10 }]
    radiuses := some [none, some (F.val 5)]
    hints := some [none, some "abc"] }

/-- A trip request with an unset radius at index 0. -/
def reqFlatTrip : TripRequest :=
  { points := pts2
    steps := false
    annotations := false
    geometry := .Polyline
    overview := .False
    roundtrip := true
    source := .Any
    destination := .Any
    bearings := none
    radiuses := some [none, some (F.val 5)]
    generate_hints := true
    hints := none
    approaches := none
    exclude := none
    snapping := none
    skip_waypoints := false }

/-- A match request with an unset radius at index 0. -/
def reqFlatMatch : MatchRequest :=
  { points := pts2
    steps := false
    geometry := .Polyline
    overview := .Simplified
    annotations := false
    timestamps := none
    gaps := .Ignore
    tidy := false
    waypoints := none
    bearings := none
    radiuses := some [none, some (F.val 5)]
    generate_hints := true
    hints := none
    approaches := none
    exclude := none
    snapping := none
    skip_waypoints := false }

/-- A table request with an unset source radius and a set destination
radius. -/
def reqFlatTable : TableRequest :=
  { sources := [{ latitude := F.val 48, longitude := F.val 10 }]
    destinations := [{ latitude := F.val 49, longitude := F.val 9 }]
    annotations := .Duration
    fallback_speed := none
    fallback_coordinate := none
    scale_factor := none
    source_bearings := none
    destination_bearings := none
    source_radiuses := some [none]
    destination_radiuses := some [some (F.val 5)]
    generate_hints := true
    source_hints := none
    destination_hints := none
    source_approaches := none
    destination_approaches := none
    exclude := none
    snapping := none }

/-- C4 (code bug evidence): the route, trip and match flattenings replace an
unset radius with positive infinity, an unset bearing with the default
bearing, and an unset hint with the empty string, as claimed — but the table
flattening initialises its radius buffer with 0.0, so an unset table radius
flattens to 0.0, not infinity. -/
theorem native_flatten_sentinels :
    nativeRouteRadiuses reqFlatRoute = [F.inf, F.val 5] ∧
    nativeRouteBearings reqFlatRoute =
      [Bearing.default, { bearing := 90, range := 10 }] ∧
    nativeRouteHints reqFlatRoute = ["", "abc"] ∧
    nativeTripRadiuses reqFlatTrip = [F.inf, F.val 5] ∧
    nativeMatchRadiuses reqFlatMatch = [F.inf, F.val 5] ∧
    nativeTableRadiuses reqFlatTable = [F.val 0, F.val 5] ∧
    ¬ nativeTableRadiuses reqFlatTable = [F.inf, F.val 5] := by
  refine ⟨rfl, rfl, rfl, rfl, rfl, rfl, ?_⟩
  intro h
  exact absurd (List.head_eq_of_cons_eq h) (by decide)

end OsrmInterface

namespace OsrmInterface

/-- The left brace character (written via its code point). -/
def lbrace : Char := Char.ofNat 123

/-- The right brace character (written via its code point). -/
def rbrace : Char := Char.ofNat 125

/-- `str::trim_start` at the char level. -/
def trimStartL : List Char → List Char
  | [] => []
  | c :: cs => if c.isWhitespace then trimStartL cs else c :: cs

/-- JSON whitespace skipping, as `serde_json` does between tokens. -/
def skipWs : List Char → List Char
  | [] => []
  | c :: cs =>
    if c == ' ' || c == '\t' || c == '\n' || c == '\r' then skipWs cs
    else c :: cs

/-- JSON values, the model of `serde_json::Value` used to embed the crate's
response parsing.  Numbers are exact rationals (see the module comment). -/
inductive Json where
  | null : Json
  | bool (b : Bool) : Json
  | num (q : ℚ) : Json
  | str (s : String) : Json
  | arr (l : List Json) : Json
  | obj (l : List (String × Json)) : Json

/-- Hexadecimal digit value. -/
def hexVal? (c : Char) : Option Nat :=
  if c.isDigit then some (c.toNat - 48)
  else if 'a' ≤ c && c ≤ 'f' then some (c.toNat - 87)
  else if 'A' ≤ c && c ≤ 'F' then some (c.toNat - 55)
  else none

/-- Parse the body of a JSON string literal (the opening quote already
consumed), returning the unescaped characters and the remaining input.
Escape sequences follow the JSON grammar; `\uXXXX` values in the surrogate
range are rejected (the model does not combine surrogate pairs). -/
def parseStringBody : Nat → List Char → Except String (List Char × List Char)
  | 0, _ => .error "string too long"
  | fuel + 1, cs =>
    match cs with
    | [] => .error "unexpected end of input in string"
    | c :: rest =>
      if c == '\"' then .ok ([], rest)
      else if c == '\\' then
        match rest with
        | [] => .error "unexpected end of input in escape"
        | e :: rest2 =>
          let esc : Except String (Char × List Char) :=
            if e == '\"' then .ok ('\"', rest2)
            else if e == '\\' then .ok ('\\', rest2)
            else if e == '/' then .ok ('/', rest2)
            else if e == 'b' then .ok (Char.ofNat 8, rest2)
            else if e == 'f' then .ok (Char.ofNat 12, rest2)
            else if e == 'n' then .ok ('\n', rest2)
            else if e == 'r' then .ok ('\r', rest2)
            else if e == 't' then .ok ('\t', rest2)
            else if e == 'u' then
              match rest2 with
              | h1 :: h2 :: h3 :: h4 :: rest3 =>
                match hexVal? h1, hexVal? h2, hexVal? h3, hexVal? h4 with
                | some v1, some v2, some v3, some v4 =>
                  let v := ((v1 * 16 + v2) * 16 + v3) * 16 + v4
                  if 0xD800 ≤ v && v ≤ 0xDFFF then
                    .error "unsupported surrogate in unicode escape"
                  else .ok (Char.ofNat v, rest3)
                | _, _, _, _ => .error "invalid hex digit in unicode escape"
              | _ => .error "truncated unicode escape"
            else .error "unknown escape"
          match esc with
          | .error m => .error m
          | .ok (ch, rest3) =>
            (parseStringBody fuel rest3).map fun p => (ch :: p.1, p.2)
      else if c.toNat < 32 then .error "control character in string"
      else (parseStringBody fuel rest).map fun p => (c :: p.1, p.2)

/-- Digits to a natural number. -/
def digitsToNat (ds : List Char) : Nat :=
  ds.foldl (fun a c => a * 10 + (c.toNat - 48)) 0

/-- Parse a JSON number (sign, integer part without leading zeros, optional
fraction, optional exponent) into an exact rational. -/
def parseNumber (cs : List Char) : Except String (ℚ × List Char) :=
  let (neg, cs1) :=
    match cs with
    | c :: r => if c == '-' then (true, r) else (false, cs)
    | [] => (false, cs)
  let (ids, cs2) := cs1.span Char.isDigit
  if ids.isEmpty then .error "expected digits in number"
  else if ids.length > 1 && ids.headD '0' == '0' then
    .error "leading zero in number"
  else
    let (fds, cs3) :=
      match cs2 with
      | c :: r =>
        if c == '.' then r.span Char.isDigit
        else ([], cs2)
      | [] => ([], cs2)
    let fracPresent :=
      match cs2 with
      | c :: _ => c == '.'
      | [] => false
    if fracPresent && fds.isEmpty then .error "expected digits after point"
    else
      let cs4 := if fracPresent then cs3 else cs2
      let (expPart, cs5) :=
        match cs4 with
        | c :: r =>
          if c == 'e' || c == 'E' then
            match r with
            | s :: r2 =>
              if s == '+' then
                let (eds, r3) := r2.span Char.isDigit
                (some (false, eds), r3)
              else if s == '-' then
                let (eds, r3) := r2.span Char.isDigit
                (some (true, eds), r3)
              else
                let (eds, r3) := r.span Char.isDigit
                (some (false, eds), r3)
            | [] => (some (false, []), r)
          else (none, cs4)
        | [] => (none, cs4)
      match expPart with
      | some (_, []) => .error "expected digits in exponent"
      | _ =>
        let mantissa : ℚ :=
          (digitsToNat (ids ++ fds) : ℚ) / (10 : ℚ) ^ fds.length
        let expVal : ℤ :=
          match expPart with
          | some (true, eds) => -(digitsToNat eds : ℤ)
          | some (false, eds) => (digitsToNat eds : ℤ)
          | none => 0
        let v := mantissa * (10 : ℚ) ^ expVal
        .ok (if neg then -v else v, cs5)

mutual

/-- Parse one JSON value.  The fuel bounds the combined nesting and element
count; `jsonParse` supplies enough for any input. -/
def parseValue : Nat → List Char → Except String (Json × List Char)
  | 0, _ => .error "json too deeply nested"
  | fuel + 1, cs =>
    match skipWs cs with
    | [] => .error "unexpected end of input"
    | c :: rest =>
      if c == '\"' then
        (parseStringBody (rest.length + 1) rest).map fun p =>
          (.str (String.mk p.1), p.2)
      else if c == lbrace then
        match skipWs rest with
        | r0 :: r =>
          if r0 == rbrace then .ok (.obj [], r)
          else
            (parseMembers fuel (skipWs rest)).map fun p => (.obj p.1, p.2)
        | [] => .error "unexpected end of input in object"
      else if c == '[' then
        match skipWs rest with
        | ']' :: r => .ok (.arr [], r)
        | _ =>
          (parseElems fuel (skipWs rest)).map fun p => (.arr p.1, p.2)
      else if c == 't' then
        match rest with
        | 'r' :: 'u' :: 'e' :: r => .ok (.bool true, r)
        | _ => .error "expected true"
      else if c == 'f' then
        match rest with
        | 'a' :: 'l' :: 's' :: 'e' :: r => .ok (.bool false, r)
        | _ => .error "expected false"
      else if c == 'n' then
        match rest with
        | 'u' :: 'l' :: 'l' :: r => .ok (.null, r)
        | _ => .error "expected null"
      else if c == '-' || c.isDigit then
        (parseNumber (c :: rest)).map fun p => (.num p.1, p.2)
      else .error "unexpected character"

/-- Parse the comma-separated elements of a non-empty array, consuming the
closing bracket. -/
def parseElems : Nat → List Char → Except String (List Json × List Char)
  | 0, _ => .error "json too deeply nested"
  | fuel + 1, cs =>
    match parseValue fuel cs with
    | .error m => .error m
    | .ok (v, r) =>
      match skipWs r with
      | ',' :: r2 => (parseElems fuel r2).map fun p => (v :: p.1, p.2)
      | ']' :: r2 => .ok ([v], r2)
      | _ => .error "expected comma or closing bracket"

/-- Parse the comma-separated members of a non-empty object, consuming the
closing brace. -/
def parseMembers : Nat → List Char →
    Except String (List (String × Json) × List Char)
  | 0, _ => .error "json too deeply nested"
  | fuel + 1, cs =>
    match cs with
    | '\"' :: r =>
      match parseStringBody (r.length + 1) r with
      | .error m => .error m
      | .ok (k, r2) =>
        match skipWs r2 with
        | ':' :: r3 =>
          match parseValue fuel r3 with
          | .error m => .error m
          | .ok (v, r4) =>
            match skipWs r4 with
            | ',' :: r5 =>
              (parseMembers fuel (skipWs r5)).map fun p =>
                ((String.mk k, v) :: p.1, p.2)
            | c :: r5 =>
              if c == rbrace then .ok ([(String.mk k, v)], r5)
              else .error "expected comma or closing brace"
            | [] => .error "unexpected end of input in object"
        | _ => .error "expected colon"
    | _ => .error "expected string key"

end

/-- Parse a complete JSON document: one value and trailing whitespace only,
as `serde_json::from_str` requires. -/
def jsonParse (s : String) : Except String Json :=
  match parseValue (2 * s.length + 2) s.data with
  | .error m => .error m
  | .ok (v, rest) =>
    match skipWs rest with
    | [] => .ok v
    | _ => .error "trailing characters"

/-- `serde_json::from_str::<String>`: the document must be a JSON string. -/
def parseJsonString (s : String) : Except String String :=
  match jsonParse s with
  | .ok (.str v) => .ok v
  | .ok _ => .error "invalid type: expected a string"
  | .error m => .error m

/-- Deserialize one `[longitude, latitude]` pair (an array of exactly two
numbers). -/
def geoCoordOfJson : Json → Except String (F × F)
  | .arr [.num a, .num b] => .ok (F.val a, F.val b)
  | _ => .error "invalid coordinate pair"

/-- Deserialize all coordinate pairs. -/
def geoCoordsOfJson : List Json → Except String (List (F × F))
  | [] => .ok []
  | j :: t =>
    match geoCoordOfJson j with
    | .error m => .error m
    | .ok p => (geoCoordsOfJson t).map fun ps => p :: ps

/-- The derived `Deserialize` for `GeoJsonLineString`: an object whose
`type` member is a string and whose `coordinates` member is an array of
pairs; duplicate members are errors, unknown members are ignored, missing
members are errors. -/
def geoJsonOfJson (j : Json) : Except String GeoJsonLineString :=
  match j with
  | .obj members =>
    let step := fun (acc : Except String
        (Option String × Option (List (F × F)))) (kv : String × Json) =>
      match acc with
      | .error m => .error m
      | .ok (tf, cf) =>
        if kv.1 == "type" then
          match tf, kv.2 with
          | some _, _ => .error "duplicate field type"
          | none, .str s => .ok (some s, cf)
          | none, _ => .error "invalid type: expected a string"
        else if kv.1 == "coordinates" then
          match cf, kv.2 with
          | some _, _ => .error "duplicate field coordinates"
          | none, .arr l =>
            match geoCoordsOfJson l with
            | .error m => .error m
            | .ok ps => .ok (tf, some ps)
          | none, _ => .error "invalid type: expected a sequence"
        else .ok (tf, cf)
    match members.foldl step (.ok (none, none)) with
    | .error m => .error m
    | .ok (some t, some ps) => .ok { type := t, coordinates := ps }
    | .ok (none, _) => .error "missing field type"
    | .ok (_, none) => .error "missing field coordinates"
  | _ => .error "invalid type: expected struct GeoJsonLineString"

/-- `serde_json::from_str::<GeoJsonLineString>`. -/
def parseGeoJsonLineString (s : String) : Except String GeoJsonLineString :=
  match jsonParse s with
  | .error m => .error m
  | .ok j => geoJsonOfJson j

/-- `str::starts_with(char)` at the char level. -/
def startsWithChar (l : List Char) (c : Char) : Bool :=
  match l with
  | x :: _ => x == c
  | [] => false

/-- `str::starts_with("\"{")` at the char level. -/
def startsWithQuoteBrace (l : List Char) : Bool :=
  match l with
  | a :: b :: _ => a == '\"' && b == lbrace
  | _ => false

/-- `impl Deserialize for Geometry` in `osrm_response_types.rs`: trim leading
whitespace from the raw payload, then branch on its first characters — `{`
decodes a GeoJSON object, `"` decodes a plain (polyline) string, `"{` would
double-decode a string-escaped GeoJSON object, anything else is an error.
The branches appear in source order; error messages are simplified (the
source enriches them with positional context without changing the chosen
constructor). -/
def decodeGeometry (raw : String) : Except String Geometry :=
  let trimmed := trimStartL raw.data
  if startsWithChar trimmed lbrace then
    (parseGeoJsonLineString (String.mk trimmed)).map Geometry.GeoJson
  else if startsWithChar trimmed '\"' then
    (parseJsonString (String.mk trimmed)).map Geometry.Polyline
  else if startsWithQuoteBrace trimmed then
    match parseJsonString (String.mk trimmed) with
    | .error m => .error m
    | .ok inner => (parseGeoJsonLineString inner).map Geometry.GeoJson
  else .error "Failed to parse geometry as Polyline or GeoJson"

end OsrmInterface

namespace OsrmInterface

/-- A geometry wire payload that is a JSON-encoded *string* whose content is
a GeoJSON object: its first two characters are the sequence quote,
open-brace. -/
def doubleEncodedPayload : String :=
  "\"\x7b\\\"type\\\":\\\"LineString\\\",\\\"coordinates\\\":[[1.0,2.0],[3.0,4.0]]\x7d\""

/-- The string content carried by `doubleEncodedPayload` (a GeoJSON object in
textual form). -/
def doubleEncodedInner : String :=
  "\x7b\"type\":\"LineString\",\"coordinates\":[[1.0,2.0],[3.0,4.0]]\x7d"

/-- C1 (code bug evidence): a payload whose first non-whitespace characters
are the two-character sequence quote-brace is consumed by the decoder's
second branch (it starts with a quote), so it decodes to the `Polyline`
variant carrying the escaped object text; the third branch that would
re-decode it as GeoJSON — the behaviour its own comment describes — is
unreachable. -/
theorem geometry_double_encoded_is_polyline :
    decodeGeometry doubleEncodedPayload =
      .ok (Geometry.Polyline doubleEncodedInner) ∧
    decodeGeometry doubleEncodedPayload ≠
      .ok (Geometry.GeoJson
        { type := "LineString"
          coordinates := [(F.val 1, F.val 2), (F.val 3, F.val 4)] }) := by
  constructor
  · rfl
  · intro h
    exact absurd (Except.ok.inj h) (by decide)

end OsrmInterface

namespace OsrmInterface

/-- Powers of ten (kept structural so concrete evaluation reduces). -/
def pow10 : Nat → Nat
  | 0 => 1
  | n + 1 => 10 * pow10 n

/-- Rust `format!("{:.prec$}", x)` on an `f64`: the exact value rounded to
`prec` decimal places with ties to even, the sign preserved, the fraction
zero-padded; infinities print `inf`/`-inf` and NaN prints `NaN`. -/
def fmtFixed (prec : Nat) (x : F) : String :=
  match x with
  | .nan => "NaN"
  | .inf => "inf"
  | .ninf => "-inf"
  | .val q =>
    let n := q.num
    let d : Int := (q.den : Int)
    let num := n * ((pow10 prec : Nat) : Int)
    let fq := Int.ediv num d
    let r := Int.emod num d
    let scaled :=
      if 2 * r < d then fq
      else if d < 2 * r then fq + 1
      else if Int.emod fq 2 == 0 then fq else fq + 1
    let a := scaled.natAbs
    let ip := a / pow10 prec
    let fp := a % pow10 prec
    let fracStr := toString fp
    let pad := String.mk (List.replicate (prec - fracStr.length) '0')
    (if q < 0 then "-" else "") ++ toString ip ++ "." ++ pad ++ fracStr

/-- Rust `format!("{}", b)` on a bool. -/
def boolStr (b : Bool) : String := if b then "true" else "false"

/-- `Profile` from `remote/mod.rs`: the profile with which the underlying
map data was extracted, placed in the `<profile>` path segment of the remote
URL. -/
inductive Profile where
  | Car
  | Bike
  | Foot
deriving DecidableEq

/-- `Profile::url_form`: the lowercase form expected by `osrm-routed`. -/
def Profile.url_form : Profile → String
  | .Bike => "bike"
  | .Car => "car"
  | .Foot => "foot"

/-- `remote::OsrmEngine::route` URL construction, following the source's
sequence of `format!` and `push_str` calls: base path and always-present
query parameters, then one optional parameter per option, where per-point
options join their per-index values with semicolons and an unset index
yields an empty string. -/
def routeUrl (endpoint : String) (profile : Profile) (r : RouteRequest) :
    String :=
  let coordinates := String.intercalate ";" (r.points.map fun p =>
    fmtFixed 6 p.longitude ++ "," ++ fmtFixed 6 p.latitude)
  let url := endpoint ++ "/route/v1/" ++ profile.url_form ++ "/" ++
    coordinates ++
    "?alternatives=" ++ boolStr r.alternatives ++
    "&steps=" ++ boolStr r.steps ++
    "&geometries=" ++ r.geometry.url_form ++
    "&overview=" ++ r.overview.url_form ++
    "&annotations=" ++ boolStr r.annotations ++
    "&generate_hints=" ++ boolStr r.generate_hints ++
    "&skip_waypoints=" ++ boolStr r.skip_waypoints
  let url :=
    match r.bearings with
    | some bearings =>
      url ++ "&bearings=" ++ String.intercalate ";" (bearings.map fun b =>
        match b with
        | some b => b.url_form
        | none => "")
    | none => url
  let url :=
    match r.radiuses with
    | some radiuses =>
      url ++ "&radiuses=" ++ String.intercalate ";" (radiuses.map fun rad =>
        match rad with
        | some rad => fmtFixed 12 rad
        | none => "")
    | none => url
  let url :=
    match r.hints with
    | some hints =>
      url ++ "&hints=" ++ String.intercalate ";" (hints.map fun h => h.getD "")
    | none => url
  let url :=
    match r.approaches with
    | some approaches =>
      url ++ "&approaches=" ++
        String.intercalate ";" (approaches.map Approach.url_form)
    | none => url
  let url :=
    match r.exclude with
    | some exclude =>
      url ++ "&exclude=" ++ String.intercalate "," (exclude.map Exclude.as_str)
    | none => url
  match r.snapping with
  | some snapping => url ++ "&snapping=" ++ snapping.url_form
  | none => url

/-- The value a per-point array option serializes at one position: the
element's URL form when set, the empty segment when unset. -/
def optSegment {α : Type} (f : α → String) : Option α → String
  | some a => f a
  | none => ""

/-- Follows the spec's words (§4.3, remote backend): a fully-formed URL with
path segment `/route/v1/<profile>/<lon,lat;lon,lat;...>` in 6-decimal-place
coordinate formatting, then query parameters for every request option, where
per-point array options are serialized as semicolon-joined values aligned
positionally with the points and an unset element serializes as an empty
segment. -/
def routeUrlSpec (endpoint : String) (profile : Profile) (r : RouteRequest) :
    String :=
  endpoint ++ "/route/v1/" ++ profile.url_form ++ "/" ++
  String.intercalate ";" (r.points.map fun p =>
    fmtFixed 6 p.longitude ++ "," ++ fmtFixed 6 p.latitude) ++
  "?alternatives=" ++ boolStr r.alternatives ++
  "&steps=" ++ boolStr r.steps ++
  "&geometries=" ++ r.geometry.url_form ++
  "&overview=" ++ r.overview.url_form ++
  "&annotations=" ++ boolStr r.annotations ++
  "&generate_hints=" ++ boolStr r.generate_hints ++
  "&skip_waypoints=" ++ boolStr r.skip_waypoints ++
  (match r.bearings with
   | some bl =>
     "&bearings=" ++
       String.intercalate ";" (bl.map (optSegment Bearing.url_form))
   | none => "") ++
  (match r.radiuses with
   | some rl =>
     "&radiuses=" ++ String.intercalate ";" (rl.map (optSegment (fmtFixed 12)))
   | none => "") ++
  (match r.hints with
   | some hl =>
     "&hints=" ++ String.intercalate ";" (hl.map (optSegment id))
   | none => "") ++
  (match r.approaches with
   | some al =>
     "&approaches=" ++ String.intercalate ";" (al.map Approach.url_form)
   | none => "") ++
  (match r.exclude with
   | some el => "&exclude=" ++ String.intercalate "," (el.map Exclude.as_str)
   | none => "") ++
  (match r.snapping with
   | some s => "&snapping=" ++ s.url_form
   | none => "")

/-- The spec's per-position bearing segment coincides with the source's
match closure. -/
theorem map_optSegment_bearing (l : List (Option Bearing)) :
    l.map (optSegment Bearing.url_form) =
      l.map fun b =>
        match b with
        | some b => b.url_form
        | none => "" := by
  induction l with
  | nil => rfl
  | cons a t ih => cases a <;> simp [optSegment, ih]

/-- The spec's per-position radius segment coincides with the source's
match closure. -/
theorem map_optSegment_radius (l : List (Option F)) :
    l.map (optSegment (fmtFixed 12)) =
      l.map fun rad =>
        match rad with
        | some rad => fmtFixed 12 rad
        | none => "" := by
  induction l with
  | nil => rfl
  | cons a t ih => cases a <;> simp [optSegment, ih]

/-- The spec's per-position hint segment coincides with the source's
`hint.unwrap_or("")`. -/
theorem map_optSegment_hint (l : List (Option String)) :
    l.map (optSegment id) = l.map fun h => h.getD "" := by
  induction l with
  | nil => rfl
  | cons a t ih => cases a <;> simp [optSegment, Option.getD, ih]

/-- The URL built by the source coincides with the spec's description, for
every request. -/
theorem routeUrl_eq_spec (endpoint : String) (profile : Profile)
    (r : RouteRequest) :
    routeUrl endpoint profile r = routeUrlSpec endpoint profile r := by
  obtain ⟨pts, alt, st, geo, ov, ann, cstr, bea, rad, gh, hi, ap, ex, sn, sw⟩ := r
  cases bea <;> cases rad <;> cases hi <;> cases ap <;> cases ex <;>
    cases sn <;>
    simp [routeUrl, routeUrlSpec, map_optSegment_bearing,
      map_optSegment_radius, map_optSegment_hint, String.append_assoc]

end OsrmInterface

namespace OsrmInterface

/-- If no check failed, every check condition is false. -/
theorem all_false_of_firstFailure_none {E : Type} {l : List (Bool × E)}
    (h : firstFailure l = none) : ∀ p ∈ l, p.1 = false := by
  intro p hp
  have hfind : l.find? (fun c => c.1) = none := by
    rcases hf : l.find? (fun c => c.1) with _ | q
    · exact hf
    · unfold firstFailure at h
      rw [hf] at h
      exact absurd h (by simp)
  have := List.find?_eq_none.mp hfind p hp
  simpa using this

/-- A supplied array passing the length check has the points' length. -/
theorem optLenMismatch_false_len {α : Type} {o : Option (List α)} {n : Nat}
    {l : List α} (h : optLenMismatch o n = false) (ho : o = some l) :
    l.length = n := by
  subst ho
  simp only [optLenMismatch, decide_eq_false_iff_not] at h
  omega

/-- A successful route build copies the builder's fields and certifies that
every validation check passed. -/
theorem RouteRequestBuilder.build_ok_fields (b : RouteRequestBuilder)
    (req : RouteRequest) (hb : b.build = .ok req) :
    req.points = b.points ∧ req.bearings = b.bearings ∧
    req.radiuses = b.radiuses ∧ req.hints = b.hints ∧
    req.approaches = b.approaches ∧ ∀ p ∈ b.checks, p.1 = false := by
  have hnone : firstFailure b.checks = none := by
    rcases hf : firstFailure b.checks with _ | e
    · rfl
    · unfold RouteRequestBuilder.build at hb
      rw [hf] at hb
      exact Except.noConfusion hb
  unfold RouteRequestBuilder.build at hb
  rw [hnone] at hb
  have h2 := Except.ok.inj hb
  exact ⟨by rw [← h2], by rw [← h2], by rw [← h2], by rw [← h2],
    by rw [← h2], all_false_of_firstFailure_none hnone⟩

/-- C8: for every route request produced by the builder, the remote URL
equals the spec's description — path `/route/v1/<profile>/` followed by the
6-decimal `lon,lat` pairs joined by semicolons and one query parameter per
option — and every supplied per-point array has exactly the points' length
and serializes positionally, the segment at index i being the element's URL
form when set and the empty string when unset. -/
theorem route_url_spec (endpoint : String) (profile : Profile)
    (b : RouteRequestBuilder) (req : RouteRequest) (hb : b.build = .ok req) :
    routeUrl endpoint profile req = routeUrlSpec endpoint profile req ∧
    (∀ bl, req.bearings = some bl →
      bl.length = req.points.length ∧
      ∀ i (h : i < bl.length),
        (bl.map (optSegment Bearing.url_form)).get ⟨i, by simpa using h⟩ =
          optSegment Bearing.url_form (bl.get ⟨i, h⟩)) ∧
    (∀ rl, req.radiuses = some rl →
      rl.length = req.points.length ∧
      ∀ i (h : i < rl.length),
        (rl.map (optSegment (fmtFixed 12))).get ⟨i, by simpa using h⟩ =
          optSegment (fmtFixed 12) (rl.get ⟨i, h⟩)) ∧
    (∀ hl, req.hints = some hl →
      hl.length = req.points.length ∧
      ∀ i (h : i < hl.length),
        (hl.map (optSegment id)).get ⟨i, by simpa using h⟩ =
          optSegment id (hl.get ⟨i, h⟩)) ∧
    (∀ al, req.approaches = some al → al.length = req.points.length) := by
  obtain ⟨hpts, hbea, hrad, hhin, happ, hchecks⟩ :=
    RouteRequestBuilder.build_ok_fields b req hb
  refine ⟨routeUrl_eq_spec endpoint profile req, ?_, ?_, ?_, ?_⟩
  · intro bl hbl
    have hfalse := hchecks _ (by
      simp [RouteRequestBuilder.checks] :
        ((optLenMismatch b.bearings b.points.length,
          RouteRequestError.DimensionMismatch .Bearings) :
          Bool × RouteRequestError) ∈ b.checks)
    refine ⟨?_, ?_⟩
    · rw [hpts]
      exact optLenMismatch_false_len hfalse (by rw [← hbea]; exact hbl)
    · intro i h
      simp [List.get_map]
  · intro rl hrl
    have hfalse := hchecks _ (by
      simp [RouteRequestBuilder.checks] :
        ((optLenMismatch b.radiuses b.points.length,
          RouteRequestError.DimensionMismatch .Radiuses) :
          Bool × RouteRequestError) ∈ b.checks)
    refine ⟨?_, ?_⟩
    · rw [hpts]
      exact optLenMismatch_false_len hfalse (by rw [← hrad]; exact hrl)
    · intro i h
      simp [List.get_map]
  · intro hl hhl
    have hfalse := hchecks _ (by
      simp [RouteRequestBuilder.checks] :
        ((optLenMismatch b.hints b.points.length,
          RouteRequestError.DimensionMismatch .Hints) :
          Bool × RouteRequestError) ∈ b.checks)
    refine ⟨?_, ?_⟩
    · rw [hpts]
      exact optLenMismatch_false_len hfalse (by rw [← hhin]; exact hhl)
    · intro i h
      simp [List.get_map]
  · intro al hal
    have hfalse := hchecks _ (by
      simp [RouteRequestBuilder.checks] :
        ((optLenMismatch b.approaches b.points.length,
          RouteRequestError.DimensionMismatch .Approaches) :
          Bool × RouteRequestError) ∈ b.checks)
    rw [hpts]
    exact optLenMismatch_false_len hfalse (by rw [← happ]; exact hal)

/-- A route builder over `pts2` with every per-point option supplied. -/
def routeBuilderOpts : RouteRequestBuilder :=
  { RouteRequestBuilder.new pts2 with
    bearings := some [some { bearing := 90, range := 10 }, none]
    radiuses := some [none, some (F.val 5)]
    hints := some [some "hintA", none]
    approaches := some [.Curb, .Unrestricted] }

/-- The request `routeBuilderOpts` builds. -/
def reqOpts : RouteRequest :=
  { points := pts2
    geometry := .Polyline
    overview := .Simplified
    alternatives := false
    steps := false
    annotations := false
    continue_straight := true
    bearings := some [some { bearing := 90, range := 10 }, none]
    radiuses := some [none, some (F.val 5)]
    generate_hints := true
    hints := some [some "hintA", none]
    approaches := some [.Curb, .Unrestricted]
    exclude := none
    snapping := none
    skip_waypoints := false }

/-- Witness for C8 at a concrete fully-optioned request. -/
theorem route_url_spec_witness :
    routeUrl "http://localhost:5000" Profile.Car reqOpts =
      routeUrlSpec "http://localhost:5000" Profile.Car reqOpts :=
  (route_url_spec "http://localhost:5000" Profile.Car
    routeBuilderOpts reqOpts rfl).1

/-- C9: the build and URL-serialization functions are deterministic — two
builds of the same unmodified builder yield requests with the same remote
URL (in the embedding, neither operation mutates its input). -/
theorem route_build_deterministic (endpoint : String) (profile : Profile)
    (b : RouteRequestBuilder) (r1 r2 : RouteRequest)
    (h1 : b.build = .ok r1) (h2 : b.build = .ok r2) :
    routeUrl endpoint profile r1 = routeUrl endpoint profile r2 := by
  rw [h1] at h2
  rw [Except.ok.inj h2]

/-- Witness for C9 at the concrete four-point request. -/
theorem route_build_deterministic_witness :
    routeUrl "http://localhost:5000" Profile.Car req4 =
      routeUrl "http://localhost:5000" Profile.Car req4 :=
  route_build_deterministic "http://localhost:5000" Profile.Car
    (RouteRequestBuilder.new pts4) req4 req4 rfl rfl

/-- `remote::OsrmEngine::route` execution, with the HTTP transfer and the
response-model deserializer as parameters (both are external library calls:
`ureq` and `serde_json`).  The source maps a transport failure to
`EndpointError(e.to_string())` and — in the same way — a body that fails to
parse to `EndpointError(e.to_string())`; the `JsonParse` variant is never
produced here. -/
def routeRemote (http : String → Except String String)
    (parse : String → Except String RouteResponse)
    (endpoint : String) (profile : Profile) (route_request : RouteRequest) :
    Except OsrmError RouteResponse :=
  if route_request.points.length == 0 then .error .InvalidRouteRequest
  else
    match http (routeUrl endpoint profile route_request) with
    | .error e => .error (.Remote (.EndpointError e))
    | .ok body =>
      match parse body with
      | .error e => .error (.Remote (.EndpointError e))
      | .ok resp => .ok resp

/-- C5 (code bug evidence): when the HTTP transfer succeeds but the body
fails to parse, the remote route call returns
`Remote(EndpointError(message))` — the same variant as a transport failure —
and not the `Remote(JsonParse(...))` decode-failure variant. -/
theorem remote_route_parse_error_wraps_endpoint :
    routeRemote (fun _ => .ok "not json")
        (fun _ => .error "expected value at line 1 column 1")
        "http://localhost:5000" Profile.Car req4 =
      .error (.Remote (.EndpointError "expected value at line 1 column 1")) ∧
    routeRemote (fun _ => .error "connection refused")
        (fun _ => .error "expected value at line 1 column 1")
        "http://localhost:5000" Profile.Car req4 =
      .error (.Remote (.EndpointError "connection refused")) ∧
    ¬ routeRemote (fun _ => .ok "not json")
        (fun _ => .error "expected value at line 1 column 1")
        "http://localhost:5000" Profile.Car req4 =
      .error (.Remote (.JsonParse "expected value at line 1 column 1")) := by
  refine ⟨rfl, rfl, ?_⟩
  intro h
  exact absurd (Except.error.inj h) (by decide)

end OsrmInterface
